import Mathlib

/-!
Verification of the behavior of `ask.py`, a command-line script that reads a
model name and a prompt from its arguments, sends one chat-completion request
to a fixed local endpoint, and prints the response text or an error message.

The script is embedded shallowly: the process is a pure function from the
argument vector and the endpoint's behavior (a function from the outgoing
request to either a parsed response or a raised exception rendered as a
string) to a trace of observable events (lines printed to standard output and
network requests issued, in order) together with the process exit code.
-/

namespace Ask

/-- One entry of the `messages` list of a chat-completion request:
`{"role": ..., "content": ...}`. -/
structure Message where
  role : String
  content : String
  deriving DecidableEq

/-- The outgoing request as assembled by the script: the client configuration
(base URL and API key, from the `OpenAI(...)` constructor call) together with
the body fields `model` and `messages` passed to
`client.chat.completions.create`. -/
structure Request where
  baseUrl : String
  apiKey : String
  model : String
  messages : List Message
  deriving DecidableEq

/-- One element of the `choices` list of a chat-completion response; the
script reads `choice.message.content`. -/
structure Choice where
  message : Message
  deriving DecidableEq

/-- A parsed chat-completion response, as far as the script inspects it. -/
structure ChatResponse where
  choices : List Choice
  deriving DecidableEq

/-- What the endpoint does for a given request: either return a parsed
response, or fail (network error, non-2xx status, malformed body), which the
client library surfaces as a raised exception whose rendered text is `e`. -/
inductive EndpointResult where
  | ok : ChatResponse → EndpointResult
  | exn : String → EndpointResult
  deriving DecidableEq

/-- An observable event of one process execution: a line printed to standard
output, or a network request issued. -/
inductive Event where
  | out : String → Event
  | req : Request → Event
  deriving DecidableEq

/-- The observable outcome of one process execution: the ordered trace of
events and the exit code. -/
structure RunResult where
  trace : List Event
  exitCode : Nat
  deriving DecidableEq

/-- The lines printed to standard output, in order. -/
def RunResult.outputs (r : RunResult) : List String :=
  r.trace.filterMap fun e =>
    match e with
    | Event.out s => some s
    | Event.req _ => none

/-- The network requests issued, in order. -/
def RunResult.requests (r : RunResult) : List Request :=
  r.trace.filterMap fun e =>
    match e with
    | Event.out _ => none
    | Event.req q => some q

/-- `base_url="http://localhost:4000"` from the `OpenAI(...)` call. -/
def baseUrlConst : String := "http://localhost:4000"

/-- `api_key="sk-litellm-master-key"` from the `OpenAI(...)` call. -/
def apiKeyConst : String := "sk-litellm-master-key"

/-- The usage message printed when fewer than two arguments follow the
program name. -/
def usageMsg : String := "Usage: python ask.py <model_name> \"<your_prompt>\""

/-- The status line `f"--- Querying Model: {model_name} ---"`. -/
def statusLine (model : String) : String :=
  "--- Querying Model: " ++ model ++ " ---"

/-- The error message `f"An error occurred: {e}"`. -/
def errorLine (e : String) : String := "An error occurred: " ++ e

/-- The text of the `IndexError` raised by `response.choices[0]` when the
`choices` list is empty, as rendered by `str(e)`. -/
def indexErrorMsg : String := "list index out of range"

/-- The request the script sends for a given model name and prompt: the fixed
client configuration, the model, and a single-element message list with role
`"user"` and the prompt as content. -/
def theRequest (model prompt : String) : Request :=
  ⟨baseUrlConst, apiKeyConst, model, [⟨"user", prompt⟩]⟩

/-- The whole script, as a function from the argument vector `argv` (with
`argv[0]` the program name, as in `sys.argv`) and the endpoint behavior to
the observable outcome.

Mirrors `ask.py` line by line: if `len(sys.argv) < 3`, print the usage
message and exit 1; otherwise print the status line, issue the single
request, and print either the first choice's text content, or — when the
endpoint fails or the `choices` list is empty so that `response.choices[0]`
raises `IndexError` — the `"An error occurred: ..."` line; the script then
falls off the end, exiting 0. -/
def run (argv : List String) (endpoint : Request → EndpointResult) : RunResult :=
  if argv.length < 3 then
    ⟨[Event.out usageMsg], 1⟩
  else
    let model_name := argv.getD 1 ""
    let user_prompt := argv.getD 2 ""
    let r := theRequest model_name user_prompt
    match endpoint r with
    | EndpointResult.exn e =>
        ⟨[Event.out (statusLine model_name), Event.req r,
          Event.out (errorLine e)], 0⟩
    | EndpointResult.ok resp =>
        match resp.choices with
        | [] =>
            ⟨[Event.out (statusLine model_name), Event.req r,
              Event.out (errorLine indexErrorMsg)], 0⟩
        | c :: _ =>
            ⟨[Event.out (statusLine model_name), Event.req r,
              Event.out c.message.content], 0⟩

/-- The text the script prints after the status line, as a function of the
endpoint's behavior on the outgoing request: the first choice's content on
success, the rendered exception otherwise (with `response.choices[0]` on an
empty list raising `IndexError`). -/
def finalText (endpoint : Request → EndpointResult) (r : Request) : String :=
  match endpoint r with
  | EndpointResult.exn e => errorLine e
  | EndpointResult.ok resp =>
    match resp.choices with
    | [] => errorLine indexErrorMsg
    | c :: _ => c.message.content

/-- Normal form of a run with enough arguments: status line, one request,
one final line, exit code 0. -/
theorem run_eq_of_enough_args (argv : List String)
    (ep : Request → EndpointResult) (h : ¬ argv.length < 3) :
    run argv ep =
      ⟨[Event.out (statusLine (argv.getD 1 "")),
        Event.req (theRequest (argv.getD 1 "") (argv.getD 2 "")),
        Event.out (finalText ep (theRequest (argv.getD 1 "") (argv.getD 2 "")))],
       0⟩ := by
  unfold run finalText
  rw [if_neg h]
  cases hep : ep (theRequest (argv.getD 1 "") (argv.getD 2 "")) with
  | ok resp =>
    cases hch : resp.choices with
    | nil => simp only [hep, hch]
    | cons c t => simp only [hep, hch]
  | exn e => simp only [hep]

/-- C1: with fewer than two arguments after the program name, the script
prints the usage message, exits with code 1, and issues no network request. -/
theorem usage_on_missing_args (argv : List String)
    (endpoint : Request → EndpointResult) (h : argv.length < 3) :
    (run argv endpoint).outputs = [usageMsg] ∧
    (run argv endpoint).exitCode = 1 ∧
    (run argv endpoint).requests = [] := by
  simp [run, h, RunResult.outputs, RunResult.requests]

/-- Witness for C1 at the concrete invocation `["ask.py", "gpt-4"]` (one
argument after the program name). -/
theorem usage_on_missing_args_witness :
    (run ["ask.py", "gpt-4"] (fun _ => EndpointResult.exn "boom")).outputs
        = [usageMsg] ∧
    (run ["ask.py", "gpt-4"] (fun _ => EndpointResult.exn "boom")).exitCode
        = 1 ∧
    (run ["ask.py", "gpt-4"] (fun _ => EndpointResult.exn "boom")).requests
        = [] :=
  usage_on_missing_args ["ask.py", "gpt-4"] (fun _ => EndpointResult.exn "boom")
    (by decide)

/-- A sample endpoint behavior that always fails with exception text
`"boom"`, for witnesses. -/
def epExn : Request → EndpointResult := fun _ => EndpointResult.exn "boom"

/-- A sample endpoint behavior that always returns one choice whose message
content is `"hello"`, for witnesses. -/
def epHello : Request → EndpointResult :=
  fun _ => EndpointResult.ok ⟨[⟨⟨"assistant", "hello"⟩⟩]⟩

/-- A sample endpoint behavior that always returns a response with an empty
`choices` list, for witnesses. -/
def epEmpty : Request → EndpointResult := fun _ => EndpointResult.ok ⟨[]⟩

/-- C2: with at least two arguments after the program name, the single
outgoing request has `model` equal to the first CLI argument and `messages`
equal to the one-element list with role `"user"` and the second CLI argument
verbatim as content. -/
theorem request_model_and_messages (argv : List String)
    (ep : Request → EndpointResult) (h : 3 ≤ argv.length) :
    (run argv ep).requests.map (fun r => (r.model, r.messages)) =
      [(argv.getD 1 "", [⟨"user", argv.getD 2 ""⟩])] := by
  rw [run_eq_of_enough_args argv ep (by omega)]
  simp [RunResult.requests, theRequest]

/-- Witness for C2 at `["ask.py", "gpt-4", "hi there"]`. -/
theorem request_model_and_messages_witness :
    (run ["ask.py", "gpt-4", "hi there"] epExn).requests.map
        (fun r => (r.model, r.messages)) =
      [("gpt-4", [⟨"user", "hi there"⟩])] :=
  request_model_and_messages ["ask.py", "gpt-4", "hi there"] epExn (by decide)

/-- C3: with at least two arguments, when the endpoint fails, the script
prints the status line followed by `"An error occurred: "` and the rendered
exception text, and exits with code 0. -/
theorem error_is_caught_and_exit_zero (argv : List String)
    (ep : Request → EndpointResult) (e : String) (h : 3 ≤ argv.length)
    (hep : ep (theRequest (argv.getD 1 "") (argv.getD 2 ""))
        = EndpointResult.exn e) :
    (run argv ep).outputs = [statusLine (argv.getD 1 ""), errorLine e] ∧
    (run argv ep).exitCode = 0 := by
  rw [run_eq_of_enough_args argv ep (by omega)]
  simp only [finalText, hep]
  simp [RunResult.outputs]

/-- Witness for C3 at `["ask.py", "gpt-4", "hi"]` with an endpoint that
raises `"boom"`. -/
theorem error_is_caught_and_exit_zero_witness :
    (run ["ask.py", "gpt-4", "hi"] epExn).outputs
        = [statusLine "gpt-4", errorLine "boom"] ∧
    (run ["ask.py", "gpt-4", "hi"] epExn).exitCode = 0 :=
  error_is_caught_and_exit_zero ["ask.py", "gpt-4", "hi"] epExn "boom"
    (by decide) rfl

/-- C4: with at least two arguments, when the endpoint returns a well-formed
response, the script prints the status line followed by exactly the text
content of the first choice, and exits with code 0. -/
theorem success_prints_first_choice (argv : List String)
    (ep : Request → EndpointResult) (resp : ChatResponse) (c : Choice)
    (t : List Choice) (h : 3 ≤ argv.length)
    (hep : ep (theRequest (argv.getD 1 "") (argv.getD 2 ""))
        = EndpointResult.ok resp)
    (hch : resp.choices = c :: t) :
    (run argv ep).outputs
        = [statusLine (argv.getD 1 ""), c.message.content] ∧
    (run argv ep).exitCode = 0 := by
  rw [run_eq_of_enough_args argv ep (by omega)]
  simp only [finalText, hep, hch]
  simp [RunResult.outputs]

/-- Witness for C4 at `["ask.py", "gpt-4", "hi"]` with an endpoint returning
one choice with content `"hello"`. -/
theorem success_prints_first_choice_witness :
    (run ["ask.py", "gpt-4", "hi"] epHello).outputs
        = [statusLine "gpt-4", "hello"] ∧
    (run ["ask.py", "gpt-4", "hi"] epHello).exitCode = 0 :=
  success_prints_first_choice ["ask.py", "gpt-4", "hi"] epHello
    ⟨[⟨⟨"assistant", "hello"⟩⟩]⟩ ⟨⟨"assistant", "hello"⟩⟩ [] (by decide)
    rfl rfl

/-- C5: with at least two arguments, the single request carries the fixed
base URL `http://localhost:4000` and the fixed static bearer credential,
independently of the CLI arguments. -/
theorem fixed_destination_and_credential (argv : List String)
    (ep : Request → EndpointResult) (h : 3 ≤ argv.length) :
    (run argv ep).requests.map (fun r => (r.baseUrl, r.apiKey)) =
      [("http://localhost:4000", "sk-litellm-master-key")] := by
  rw [run_eq_of_enough_args argv ep (by omega)]
  simp [RunResult.requests, theRequest, baseUrlConst, apiKeyConst]

/-- Witness for C5 at `["ask.py", "some-other-model", "another prompt"]`. -/
theorem fixed_destination_and_credential_witness :
    (run ["ask.py", "some-other-model", "another prompt"] epHello).requests.map
        (fun r => (r.baseUrl, r.apiKey)) =
      [("http://localhost:4000", "sk-litellm-master-key")] :=
  fixed_destination_and_credential ["ask.py", "some-other-model",
    "another prompt"] epHello (by decide)

/-- C6: with at least two arguments, the first observable event is printing
the status line naming the model and the second is issuing the request, so
the status line precedes the request and every later output (response text or
error message) in both outcomes. -/
theorem status_line_precedes_request (argv : List String)
    (ep : Request → EndpointResult) (h : 3 ≤ argv.length) :
    (run argv ep).trace.take 2 =
      [Event.out (statusLine (argv.getD 1 "")),
       Event.req (theRequest (argv.getD 1 "") (argv.getD 2 ""))] := by
  rw [run_eq_of_enough_args argv ep (by omega)]
  simp

/-- Witness for C6 at `["ask.py", "gpt-4", "hi"]`. -/
theorem status_line_precedes_request_witness :
    (run ["ask.py", "gpt-4", "hi"] epExn).trace.take 2 =
      [Event.out (statusLine "gpt-4"),
       Event.req (theRequest "gpt-4" "hi")] :=
  status_line_precedes_request ["ask.py", "gpt-4", "hi"] epExn (by decide)

/-- C7: with at least two arguments, exactly one request is issued per
execution — in the error outcome as well — and the trace is exactly status
line, then the single request, then the one result line, so the call
completes before the result is printed and nothing is re-issued. -/
theorem exactly_one_request (argv : List String)
    (ep : Request → EndpointResult) (h : 3 ≤ argv.length) :
    (run argv ep).requests
        = [theRequest (argv.getD 1 "") (argv.getD 2 "")] ∧
    (run argv ep).trace =
      [Event.out (statusLine (argv.getD 1 "")),
       Event.req (theRequest (argv.getD 1 "") (argv.getD 2 "")),
       Event.out (finalText ep (theRequest (argv.getD 1 "") (argv.getD 2 "")))]
    := by
  rw [run_eq_of_enough_args argv ep (by omega)]
  simp [RunResult.requests]

/-- Witness for C7 at `["ask.py", "gpt-4", "hi"]` with a failing endpoint. -/
theorem exactly_one_request_witness :
    (run ["ask.py", "gpt-4", "hi"] epExn).requests
        = [theRequest "gpt-4" "hi"] ∧
    (run ["ask.py", "gpt-4", "hi"] epExn).trace =
      [Event.out (statusLine "gpt-4"),
       Event.req (theRequest "gpt-4" "hi"),
       Event.out (finalText epExn (theRequest "gpt-4" "hi"))] :=
  exactly_one_request ["ask.py", "gpt-4", "hi"] epExn (by decide)

/-- C8: with at least two arguments, when the endpoint returns a response
whose `choices` list is empty, the `IndexError` raised by
`response.choices[0]` is caught by the top-level handler: the script prints
`"An error occurred: "` with the exception text instead of terminating with
an unhandled exception, and exits with code 0. -/
theorem empty_choices_error_is_caught (argv : List String)
    (ep : Request → EndpointResult) (resp : ChatResponse)
    (h : 3 ≤ argv.length)
    (hep : ep (theRequest (argv.getD 1 "") (argv.getD 2 ""))
        = EndpointResult.ok resp)
    (hch : resp.choices = []) :
    (run argv ep).outputs
        = [statusLine (argv.getD 1 ""), errorLine indexErrorMsg] ∧
    (run argv ep).exitCode = 0 := by
  rw [run_eq_of_enough_args argv ep (by omega)]
  simp only [finalText, hep, hch]
  simp [RunResult.outputs]

/-- Witness for C8 at `["ask.py", "gpt-4", "hi"]` with an endpoint returning
an empty `choices` list. -/
theorem empty_choices_error_is_caught_witness :
    (run ["ask.py", "gpt-4", "hi"] epEmpty).outputs
        = [statusLine "gpt-4", errorLine indexErrorMsg] ∧
    (run ["ask.py", "gpt-4", "hi"] epEmpty).exitCode = 0 :=
  empty_choices_error_is_caught ["ask.py", "gpt-4", "hi"] epEmpty ⟨[]⟩
    (by decide) rfl rfl

/-- C9: arguments beyond the first two are ignored: two invocations that
agree on the first two arguments (and face the same endpoint behavior)
produce identical traces and exit codes. -/
theorem extra_args_ignored (argv₁ argv₂ : List String)
    (ep : Request → EndpointResult)
    (h₁ : 3 ≤ argv₁.length) (h₂ : 3 ≤ argv₂.length)
    (hm : argv₁.getD 1 "" = argv₂.getD 1 "")
    (hp : argv₁.getD 2 "" = argv₂.getD 2 "") :
    run argv₁ ep = run argv₂ ep := by
  rw [run_eq_of_enough_args argv₁ ep (by omega),
    run_eq_of_enough_args argv₂ ep (by omega), hm, hp]

/-- Witness for C9: `["ask.py", "gpt-4", "hi"]` versus the same invocation
with two extra trailing arguments. -/
theorem extra_args_ignored_witness :
    run ["ask.py", "gpt-4", "hi"] epHello
      = run ["ask.py", "gpt-4", "hi", "extra", "args"] epHello :=
  extra_args_ignored ["ask.py", "gpt-4", "hi"]
    ["ask.py", "gpt-4", "hi", "extra", "args"] epHello
    (by decide) (by decide) rfl rfl

/-- C10: the script is deterministic in its inputs: two runs with the same
argument vector and extensionally the same endpoint behavior have identical
traces (hence identical standard output) and exit codes; the embedding takes
no other input, matching the absence of environment, file, or other ambient
state in the source. -/
theorem deterministic_in_inputs (argv₁ argv₂ : List String)
    (ep₁ ep₂ : Request → EndpointResult)
    (ha : argv₁ = argv₂) (he : ∀ r, ep₁ r = ep₂ r) :
    run argv₁ ep₁ = run argv₂ ep₂ := by
  subst ha
  rw [funext he]

/-- Witness for C10: the same invocation against two syntactically different
but extensionally equal endpoint behaviors. -/
theorem deterministic_in_inputs_witness :
    run ["ask.py", "gpt-4", "hi"] (fun _ => EndpointResult.exn "boom")
      = run ["ask.py", "gpt-4", "hi"]
          (fun _ => EndpointResult.exn ("bo" ++ "om")) :=
  deterministic_in_inputs ["ask.py", "gpt-4", "hi"] ["ask.py", "gpt-4", "hi"]
    (fun _ => EndpointResult.exn "boom")
    (fun _ => EndpointResult.exn ("bo" ++ "om"))
    rfl (fun r => by
      show EndpointResult.exn "boom" = EndpointResult.exn ("bo" ++ "om")
      decide)

end Ask
